import Mathlib

/-!
Shallow embedding of the Modal deployment descriptor `modal/app.py` of the
dataset-viewer repository, together with theorems settling the spec claims.

The descriptor declares two module-level string constants, a volume
resolution (`modal.Volume.from_name` with `create_if_missing=False`), an
image build step copying the local directory with an ignore list, an entry
procedure `web()` that reloads the volume and spawns the Next.js server as
a child process with an overridden environment, and a local entrypoint
`main()` printing three lines of static deployment information.
-/

namespace DatasetViewer

/-- A process environment: a partial map from variable names to values. -/
def Env : Type := String → Option String

/-- The empty environment, used to instantiate universally quantified
theorems at a concrete input. -/
def emptyEnv : Env := fun _ => none

/-- `APP_NAME = "dataset-viewer"` (module-level constant, app.py line 22). -/
def APP_NAME : String := "dataset-viewer"

/-- `VOLUME_NAME = "claimhawk-lora-training"` (module-level constant, app.py line 23). -/
def VOLUME_NAME : String := "claimhawk-lora-training"

/-! ## Volume resolution

`modal.Volume.from_name(name, create_if_missing=...)` resolves a named
volume against the set of volumes that exist on the platform.  With
creation enabled a missing volume is created; with creation disabled
resolution of a missing volume fails.  The world of existing volumes is
passed explicitly; the result carries the (possibly updated) world. -/

/-- Resolution of a named volume against the list of existing volume
names.  Returns the resolved name and the resulting world, or an error
when the volume is missing and creation is disabled. -/
def resolveVolume (world : List String) (name : String) (createIfMissing : Bool) :
    Except String (String × List String) :=
  if name ∈ world then Except.ok (name, world)
  else if createIfMissing then Except.ok (name, name :: world)
  else Except.error ("volume not found: " ++ name)

/-- `datasets_volume = modal.Volume.from_name(VOLUME_NAME, create_if_missing=False)`
(app.py line 28), as a resolution against an explicit world. -/
def datasets_volume_resolve (world : List String) :
    Except String (String × List String) :=
  resolveVolume world VOLUME_NAME false

/-! ## Image build: source copy with ignore list -/

/-- A filesystem path relative to the copied directory, as its list of
components. -/
def Path : Type := List String

/-- The ignore list of `.copy_local_dir(".", "/app", ignore=[...])`
(app.py line 36). -/
def copyIgnore : List String := [".next", "node_modules", ".git", "modal"]

/-- A path is ignored when its top-level component is one of the ignore
entries (each entry names a top-level directory, pruned with all its
contents). -/
def ignoredPath (p : Path) : Bool :=
  match p with
  | [] => false
  | c :: _ => copyIgnore.contains c

/-- The copy step of the image build: the copied tree under `/app` holds
exactly the input paths not matched by the ignore list. -/
def copy_local_dir (files : List Path) : List Path :=
  files.filter (fun p => !ignoredPath p)

/-! ## The entry procedure `web()` -/

/-- The port declared to the platform in `@modal.web_server(3000, ...)`
(app.py line 53). -/
def webServerPort : Nat := 3000

/-- The startup timeout declared in `@modal.web_server(..., startup_timeout=60)`. -/
def startup_timeout : Nat := 60

/-- Python dict update: `{**m, k: v}` sets key `k` to `v` on top of `m`. -/
def envSet (m : Env) (k v : String) : Env :=
  fun q => if q = k then some v else m q

/-- The environment passed to `subprocess.Popen` in `web()`:
`{**os.environ, "PORT": "3000", "HOSTNAME": "0.0.0.0", "NODE_ENV": "production"}`
(app.py lines 62-67), layered on the inherited environment `inh`. -/
def childEnv (inh : Env) : Env :=
  envSet (envSet (envSet inh "PORT" "3000") "HOSTNAME" "0.0.0.0")
    "NODE_ENV" "production"

/-- The argv of the spawned server process: `["npm", "run", "start"]`. -/
def npmStart : List String := ["npm", "run", "start"]

/-- Observable side effects of the entry procedure.  The vocabulary also
holds supervision effects (waiting on the child, probing readiness,
retrying) so that their absence from the emitted trace is a statement, not
a triviality. -/
inductive Effect where
  | reload : Effect
  | spawn (argv : List String) (cwd : String) (env : Env) : Effect
  | waitChild : Effect
  | checkReady : Effect
  | retrySpawn : Effect

/-- Outcome of `datasets_volume.reload()`: success, or an exception
carrying a message. -/
def ReloadOutcome : Type := Except String Unit

/-- The effect trace of one invocation of `web()` (app.py lines 54-69),
given the inherited environment and the outcome of the volume reload: the
reload request is issued first; only when it succeeds is the server
spawned via `subprocess.Popen(["npm","run","start"], cwd="/app", env=...)`;
when the reload raises, the exception aborts the procedure before the
spawn. -/
def webTrace (inh : Env) (r : ReloadOutcome) : List Effect :=
  Effect.reload ::
    (match r with
     | Except.ok _ => [Effect.spawn npmStart "/app" (childEnv inh)]
     | Except.error _ => [])

/-- The return behaviour of `web()`: it returns `None` (unit) on success
and re-raises the reload exception otherwise. -/
def webRun (_inh : Env) (r : ReloadOutcome) : Except String Unit :=
  match r with
  | Except.ok _ => Except.ok ()
  | Except.error e => Except.error e

/-- Trace of two successive invocations of `web()` within one container
instance. -/
def twoInvocations (inh : Env) (r1 r2 : ReloadOutcome) : List Effect :=
  webTrace inh r1 ++ webTrace inh r2

/-- Whether an effect is a process spawn. -/
def isSpawn (e : Effect) : Bool :=
  match e with
  | Effect.spawn _ _ _ => true
  | _ => false

/-- Whether an effect is a supervision effect (wait, readiness check or
retry). -/
def isSupervision (e : Effect) : Bool :=
  match e with
  | Effect.waitChild => true
  | Effect.checkReady => true
  | Effect.retrySpawn => true
  | _ => false

/-- Number of spawn effects in a trace. -/
def countSpawns (t : List Effect) : Nat :=
  t.countP isSpawn

/-! ## The local entrypoint `main()` -/

/-- The URL printed by `main()`:
`f"https://claimhawk--{APP_NAME}-web.modal.run"` (app.py line 77). -/
def summaryURL : String := "https://claimhawk--" ++ APP_NAME ++ "-web.modal.run"

/-- The three lines printed by `main()` (app.py lines 72-77). -/
def mainOutput : List String :=
  ["Dataset Viewer deployed to Modal",
   "Volume: " ++ VOLUME_NAME,
   "Access at: " ++ summaryURL]

/-- Running `main()` in a process environment: the body reads no
environment variable, so the output is the constant `mainOutput`. -/
def mainRun (_env : Env) : List String := mainOutput

/-- `t` occurs as a contiguous run inside `s` (lists of characters). -/
def infixOf (t s : List Char) : Bool :=
  if t.isPrefixOf s then true
  else
    match s with
    | [] => false
    | _ :: s2 => infixOf t s2

/-- `t` occurs as a substring of `s`. -/
def strContains (s t : String) : Bool := infixOf t.data s.data

/-! ## Theorems settling the claims -/

/-- C1: every invocation of `web()` issues the volume reload as its first
side effect; the server spawn happens only after it (on a successful
reload the trace is exactly reload-then-spawn, on a failed reload no spawn
occurs); and the procedure returns no value (unit) on success. -/
theorem web_effect_order (inh : Env) (r : ReloadOutcome) :
    (webTrace inh r).head? = some Effect.reload ∧
    webTrace inh (Except.ok ()) =
      [Effect.reload, Effect.spawn npmStart "/app" (childEnv inh)] ∧
    countSpawns (webTrace inh (Except.error "boom")) = 0 ∧
    webRun inh (Except.ok ()) = Except.ok () := by
  refine ⟨?_, rfl, rfl, rfl⟩
  cases r <;> rfl

/-- C2: the environment of the spawned server equals the inherited
environment with exactly the three overrides `PORT`, `HOSTNAME` and
`NODE_ENV`; every other variable passes through unchanged. -/
theorem child_env_overrides (inh : Env) :
    childEnv inh "PORT" = some "3000" ∧
    childEnv inh "HOSTNAME" = some "0.0.0.0" ∧
    childEnv inh "NODE_ENV" = some "production" ∧
    ∀ k, k ≠ "PORT" → k ≠ "HOSTNAME" → k ≠ "NODE_ENV" →
      childEnv inh k = inh k := by
  refine ⟨rfl, rfl, rfl, ?_⟩
  intro k h1 h2 h3
  simp [childEnv, envSet, h1, h2, h3]

/-- Witness for C2 at a concrete environment and a concrete untouched
variable. -/
theorem child_env_overrides_witness :
    childEnv (fun _ => some "x") "PORT" = some "3000" ∧
    childEnv (fun _ => some "x") "HOME" = some "x" :=
  ⟨(child_env_overrides (fun _ => some "x")).1,
   (child_env_overrides (fun _ => some "x")).2.2.2 "HOME"
     (by decide) (by decide) (by decide)⟩

/-- C3 counterexample: the volume name is printed by `main()` but does
not appear in the printed summary URL, so the claim that both configured
names match what appears in the URL fails. -/
theorem main_summary_names_counterexample :
    VOLUME_NAME = "claimhawk-lora-training" ∧
    ("Access at: " ++ summaryURL) ∈ mainOutput ∧
    strContains summaryURL VOLUME_NAME = false := by
  refine ⟨rfl, ?_, by decide⟩
  simp [mainOutput]

/-- C3 amended: `main()` prints both configured values (both non-empty;
the volume name on its own line, the deployment name embedded in the URL)
and a URL containing the organization prefix and the literal substring
`dataset-viewer-web`; the deployment name matches exactly what appears in
the URL, while the volume name appears only in the printed summary, not in
the URL. -/
theorem main_summary_output :
    APP_NAME = "dataset-viewer" ∧
    VOLUME_NAME = "claimhawk-lora-training" ∧
    APP_NAME ≠ "" ∧
    VOLUME_NAME ≠ "" ∧
    ("Volume: " ++ VOLUME_NAME) ∈ mainOutput ∧
    ("Access at: " ++ summaryURL) ∈ mainOutput ∧
    strContains summaryURL "claimhawk--" = true ∧
    strContains summaryURL "dataset-viewer-web" = true ∧
    strContains summaryURL APP_NAME = true := by
  refine ⟨rfl, rfl, by decide, by decide, ?_, ?_, by decide, by decide, by decide⟩
  · simp [mainOutput]
  · simp [mainOutput]

/-- C4 counterexample: two invocations of `web()` in one instance both
spawn a child, and both spawned children are told to listen on the same
port, so the second invocation is neither a no-op nor spawn-free. -/
theorem web_idempotence_counterexample :
    countSpawns (twoInvocations emptyEnv (Except.ok ()) (Except.ok ())) = 2 ∧
    ¬ countSpawns (twoInvocations emptyEnv (Except.ok ()) (Except.ok ())) ≤ 1 ∧
    childEnv emptyEnv "PORT" = some "3000" := by
  refine ⟨rfl, by decide, rfl⟩

/-- C4 amended: `web()` is not idempotent at the descriptor level: a
second invocation within one instance unconditionally spawns another
server child with the identical command, working directory and port
configuration; the procedure has no guard, no-op path or port check, so
any protection against two live listeners lies outside this code. -/
theorem web_two_invocations (inh : Env) :
    twoInvocations inh (Except.ok ()) (Except.ok ()) =
      [Effect.reload, Effect.spawn npmStart "/app" (childEnv inh),
       Effect.reload, Effect.spawn npmStart "/app" (childEnv inh)] ∧
    childEnv inh "PORT" = some "3000" :=
  ⟨rfl, rfl⟩

/-- C5: when the volume reload raises, `web()` re-raises the same error
uncaught, its trace stops at the reload request, and the server child is
never spawned. -/
theorem web_reload_error_propagates (inh : Env) (e : String) :
    webRun inh (Except.error e) = Except.error e ∧
    webTrace inh (Except.error e) = [Effect.reload] ∧
    countSpawns (webTrace inh (Except.error e)) = 0 :=
  ⟨rfl, rfl, rfl⟩

/-- C6: no path whose top-level component is one of the ignore entries
(`.next`, `node_modules`, `.git`, `modal`) ever appears in the copied
source tree under `/app`. -/
theorem copy_excludes_ignored (files : List Path) (p : Path) (c : String)
    (hc : c ∈ copyIgnore) (hp : p.head? = some c) :
    p ∉ copy_local_dir files := by
  intro hmem
  have hfil := List.of_mem_filter hmem
  cases p with
  | nil => simp at hp
  | cons c2 t =>
    have hc2 : c2 = c := by simpa using hp
    subst hc2
    simp [ignoredPath, List.contains_iff_exists_mem_beq] at hfil
    exact hfil hc

/-- Witness for C6: the `.git` directory is dropped from a concrete file
list. -/
theorem copy_excludes_ignored_witness :
    [".git", "config"] ∉ copy_local_dir [[".git", "config"], ["package.json"]] :=
  copy_excludes_ignored [[".git", "config"], ["package.json"]]
    [".git", "config"] ".git" (by decide) rfl

/-- C7: the descriptor resolves the volume with creation disabled: when
no volume with the configured name exists, resolution fails with an error,
and a successful resolution never changes the set of existing volumes
(the volume is never created). -/
theorem volume_must_exist (world : List String) :
    (VOLUME_NAME ∉ world →
      datasets_volume_resolve world =
        Except.error ("volume not found: " ++ VOLUME_NAME)) ∧
    (∀ v w2, datasets_volume_resolve world = Except.ok (v, w2) →
      v = VOLUME_NAME ∧ w2 = world) := by
  unfold datasets_volume_resolve resolveVolume
  by_cases h : VOLUME_NAME ∈ world
  · refine ⟨fun hn => absurd h hn, ?_⟩
    intro v w2 hok
    simp [h] at hok
    exact ⟨hok.1.symm, hok.2.symm⟩
  · refine ⟨fun _ => by simp [h], ?_⟩
    intro v w2 hok
    simp [h] at hok

/-- Witness for C7: in an empty world the resolution fails; in a world
holding the volume it succeeds without creating anything. -/
theorem volume_must_exist_witness :
    datasets_volume_resolve [] =
      Except.error ("volume not found: " ++ VOLUME_NAME) ∧
    ("claimhawk-lora-training" = VOLUME_NAME ∧
      [VOLUME_NAME] = ([VOLUME_NAME] : List String)) :=
  ⟨(volume_must_exist []).1 (by decide),
   (volume_must_exist [VOLUME_NAME]).2 "claimhawk-lora-training" [VOLUME_NAME]
     (by simp [datasets_volume_resolve, resolveVolume, VOLUME_NAME])⟩

/-- C8: `web()` is fire-and-forget: no effect of any kind follows the
spawn in its trace (no readiness check, no wait on the child), and the
trace holds no supervision effect (wait, readiness probe or retry) at
all. -/
theorem web_fire_and_forget (inh : Env) (r : ReloadOutcome) (i : Nat)
    (a : List String) (c : String) (e : Env)
    (h : (webTrace inh r).get? i = some (Effect.spawn a c e)) :
    (webTrace inh r).get? (i + 1) = none ∧
    (webTrace inh r).countP isSupervision = 0 := by
  cases r with
  | ok u =>
    match i with
    | 0 => simp [webTrace] at h
    | 1 => exact ⟨rfl, rfl⟩
    | n + 2 => simp [webTrace] at h
  | error msg =>
    match i with
    | 0 => simp [webTrace] at h
    | n + 1 => simp [webTrace] at h

/-- Witness for C8 at a concrete environment: the successful trace has its
spawn at index 1 and nothing at index 2. -/
theorem web_fire_and_forget_witness :
    (webTrace emptyEnv (Except.ok ())).get? 2 = none ∧
    (webTrace emptyEnv (Except.ok ())).countP isSupervision = 0 :=
  web_fire_and_forget emptyEnv (Except.ok ()) 1 npmStart "/app"
    (childEnv emptyEnv) rfl

/-- C9: the `PORT` value handed to the spawned server always equals the
decimal rendering of the port the descriptor declares to the platform in
`@modal.web_server(3000, ...)`. -/
theorem port_agreement (inh : Env) :
    childEnv inh "PORT" = some (toString webServerPort) := rfl

/-- C10: `main()` is deterministic and independent of the process
environment: any two runs, under arbitrary environments, produce
character-for-character identical output. -/
theorem main_deterministic (e1 e2 : Env) : mainRun e1 = mainRun e2 := rfl

end DatasetViewer
